import Mathlib

/-!
Shallow embedding of the core workflow logic of the virtual-dev-agent
repository (src/src/agents/{state,supervisor,graph,planner,tester,
implementer,reporter}.py) together with theorems settling the frozen
claims about it.

Conventions of the embedding:
- Python `str` is modelled by `String`, machine floats by `ℚ` (all the
  constants appearing in the code are exact decimals), `int` by `Nat`/`ℤ`.
- A Python dict that the code only reads through `.get` with defaults is
  modelled by a structure whose fields carry those defaults; a dict used
  as a string-keyed map is modelled by an association list.
- Fallible calls are modelled with `Except`; an uncaught Python exception
  is an `Except.error` value that the surrounding definitions propagate
  exactly where the source lets the exception escape.
- External collaborators (shell commands, HTTP clients, the completion
  provider) are modelled as environment records holding the value or
  exception each call would produce; the repository code consuming those
  results is translated directly from the source.
-/

namespace VDA

/-! ## Python string primitives -/

/-- Lowercasing of a string, modelling Python `str.lower` (the code only
applies it to ASCII provider output). -/
def strLower (s : String) : String := String.mk (s.data.map Char.toLower)

/-- Substring membership on char lists: `needle` occurs contiguously in the
list. Models the Python `in` operator on strings. -/
def listContainsSub (needle : List Char) : List Char → Bool
  | [] => needle.isEmpty
  | c :: t => needle.isPrefixOf (c :: t) || listContainsSub needle t

/-- Python `needle in hay` on strings. -/
def pyIn (needle hay : String) : Bool := listContainsSub needle.data hay.data

/-- Whitespace characters stripped by Python `str.strip` (the forms that
occur in the modelled outputs). -/
def isPySpace (c : Char) : Bool := c = ' ' || c = '\t' || c = '\n' || c = '\r'

/-- Python `str.strip()`. -/
def strStrip (s : String) : String :=
  String.mk (((s.data.dropWhile isPySpace).reverse.dropWhile isPySpace).reverse)

/-- Python slicing `s[:n]`. -/
def strTake (s : String) (n : Nat) : String := String.mk (s.data.take n)

/-- Python slicing `s[-n:]` (the whole string when it is shorter than `n`). -/
def strTakeRight (s : String) (n : Nat) : String :=
  String.mk (s.data.drop (s.data.length - n))

/-- Decimal digits to a natural number. -/
def digitsToNat (l : List Char) : Nat := l.foldl (fun n c => 10 * n + (c.toNat - 48)) 0

/-! ## Python values and exceptions

`PyVal` covers the JSON-decodable values the provider-response parsing can
produce; `PyErr` covers the exception classes distinguished by the
`except` clauses in the source. -/

inductive PyVal where
  | str : String → PyVal
  | int : ℤ → PyVal
  | float : ℚ → PyVal
  | bool : Bool → PyVal
  | none : PyVal
  | list : List String → PyVal
  deriving DecidableEq, Repr

inductive PyErr where
  | jsonDecodeError
  | valueError
  | typeError
  | attributeError
  deriving DecidableEq, Repr

/-- Python truthiness of a value. -/
def pyTruthy : PyVal → Bool
  | .str s => s ≠ ""
  | .int n => n ≠ 0
  | .float q => q ≠ 0
  | .bool b => b
  | .none => false
  | .list l => l ≠ []

/-- Python `x.lower()`: only strings have the attribute, every other value
raises `AttributeError`. -/
def pyLower : PyVal → Except PyErr String
  | .str s => .ok (strLower s)
  | _ => .error .attributeError

/-- Python `float(string)` on plain decimal literals (optional sign,
optional fractional part, surrounding whitespace). The further forms
Python accepts (exponents, `inf`, `nan`) are outside the modelled subset
and are mapped to `ValueError` like any other unconvertible string. -/
def strToFloat (s : String) : Option ℚ :=
  let l := ((s.data.dropWhile isPySpace).reverse.dropWhile isPySpace).reverse
  let (neg, l1) : Bool × List Char :=
    match l with
    | '-' :: t => (true, t)
    | '+' :: t => (false, t)
    | _ => (false, l)
  let intPart := l1.takeWhile Char.isDigit
  let rest := l1.drop intPart.length
  match rest with
  | [] =>
    if intPart = [] then Option.none
    else some (if neg then -(digitsToNat intPart : ℚ) else (digitsToNat intPart : ℚ))
  | '.' :: t =>
    let fracPart := t.takeWhile Char.isDigit
    if intPart = [] ∧ fracPart = [] then Option.none
    else if t.drop fracPart.length ≠ [] then Option.none
    else
      let q : ℚ := (digitsToNat intPart : ℚ) + (digitsToNat fracPart : ℚ) / (10 : ℚ) ^ fracPart.length
      some (if neg then -q else q)
  | _ => Option.none

/-- Python `float(x)`: numbers and booleans convert, strings are parsed
(`ValueError` on failure), `None` and containers raise `TypeError`. -/
def pyFloat : PyVal → Except PyErr ℚ
  | .int n => .ok (n : ℚ)
  | .float q => .ok q
  | .bool b => .ok (if b then 1 else 0)
  | .str s =>
    match strToFloat s with
    | some q => .ok q
    | Option.none => .error .valueError
  | .none => .error .typeError
  | .list _ => .error .typeError

/-! ## Regex and JSON models used by the response parsers -/

/-- Leftmost match of the regex `\x7b[^\x7d]+\x7d` (an opening brace, one or
more non-closing-brace characters, a closing brace), as used by
`re.search` in `SupervisorAgent._parse_response` and
`ImplementerAgent._check_completion`. -/
def braceSearch : List Char → Option (List Char)
  | [] => Option.none
  | c :: rest =>
    if c = '\x7b' then
      let inner := rest.takeWhile (fun d => d ≠ '\x7d')
      if inner.length ≥ 1 ∧ inner.length < rest.length then
        some ('\x7b' :: (inner ++ ['\x7d']))
      else braceSearch rest
    else braceSearch rest

def isJsonWs (c : Char) : Bool := c = ' ' || c = '\n' || c = '\t' || c = '\r'

def skipWs (l : List Char) : List Char := l.dropWhile isJsonWs

/-- JSON string literal without escape sequences (a backslash in the body
is treated as a decode error; the modelled subset of `json.loads` is exact
on inputs free of string escapes). -/
def parseJString : List Char → Option (String × List Char)
  | '"' :: rest =>
    let body := rest.takeWhile (fun c => c ≠ '"' ∧ c ≠ '\\')
    match rest.drop body.length with
    | '"' :: rem => some (String.mk body, rem)
    | _ => Option.none
  | _ => Option.none

/-- JSON number literal (integer or decimal fraction; exponent forms are
outside the modelled subset). -/
def parseJNumber (l : List Char) : Option (PyVal × List Char) :=
  let (neg, l1) : Bool × List Char :=
    match l with
    | '-' :: t => (true, t)
    | _ => (false, l)
  let intPart := l1.takeWhile Char.isDigit
  if intPart = [] then Option.none
  else
    let rest := l1.drop intPart.length
    match rest with
    | '.' :: t =>
      let fracPart := t.takeWhile Char.isDigit
      if fracPart = [] then Option.none
      else
        let q : ℚ := (digitsToNat intPart : ℚ) + (digitsToNat fracPart : ℚ) / (10 : ℚ) ^ fracPart.length
        some (PyVal.float (if neg then -q else q), t.drop fracPart.length)
    | _ =>
      some (PyVal.int (if neg then -(digitsToNat intPart : ℤ) else (digitsToNat intPart : ℤ)), rest)

/-- JSON scalar: string, boolean, null or number. -/
def parseJScalar (l : List Char) : Option (PyVal × List Char) :=
  match l with
  | '"' :: _ => (parseJString l).map (fun p => (PyVal.str p.1, p.2))
  | 't' :: 'r' :: 'u' :: 'e' :: r => some (PyVal.bool true, r)
  | 'f' :: 'a' :: 'l' :: 's' :: 'e' :: r => some (PyVal.bool false, r)
  | 'n' :: 'u' :: 'l' :: 'l' :: r => some (PyVal.none, r)
  | _ => parseJNumber l

/-- Elements of a JSON array of string literals, after the opening bracket
(arrays of non-string scalars are outside the modelled subset; the code
under verification never reads decoded arrays, only their truthiness). -/
def parseJArrayElems : Nat → List Char → Option (List String × List Char)
  | 0, _ => Option.none
  | fuel + 1, l =>
    match parseJString (skipWs l) with
    | Option.none => Option.none
    | some (v, r) =>
      match skipWs r with
      | ',' :: r2 => (parseJArrayElems fuel r2).map (fun p => (v :: p.1, p.2))
      | ']' :: r2 => some ([v], r2)
      | _ => Option.none

/-- JSON value: scalar or array of strings. -/
def parseJValue (fuel : Nat) (l : List Char) : Option (PyVal × List Char) :=
  match l with
  | '[' :: r =>
    match skipWs r with
    | ']' :: r2 => some (PyVal.list [], r2)
    | r2 => (parseJArrayElems fuel r2).map (fun p => (PyVal.list p.1, p.2))
  | _ => parseJScalar l

/-- Key/value pairs of a JSON object, after the opening brace. -/
def parseJPairs : Nat → List Char → Option (List (String × PyVal) × List Char)
  | 0, _ => Option.none
  | fuel + 1, l =>
    match parseJString (skipWs l) with
    | Option.none => Option.none
    | some (k, r) =>
      match skipWs r with
      | ':' :: r2 =>
        match parseJValue fuel (skipWs r2) with
        | Option.none => Option.none
        | some (v, r3) =>
          match skipWs r3 with
          | ',' :: r4 => (parseJPairs fuel r4).map (fun p => ((k, v) :: p.1, p.2))
          | '\x7d' :: r4 => some ([(k, v)], r4)
          | _ => Option.none
      | _ => Option.none

/-- Python `json.loads` restricted to a flat object (string keys; string,
number, boolean, null or string-array values). Inputs outside that subset
decode to `JSONDecodeError`; on the brace-delimited regions fed to it by
the code the subset is exact up to string escapes, exponent number forms
and nested containers, none of which influence any claim settled below. -/
def jsonLoads (s : String) : Except PyErr (List (String × PyVal)) :=
  match skipWs s.data with
  | '\x7b' :: r =>
    match skipWs r with
    | '\x7d' :: r2 => if skipWs r2 = [] then .ok [] else .error .jsonDecodeError
    | r1 =>
      match parseJPairs (s.length + 1) r1 with
      | some (ps, rest) => if skipWs rest = [] then .ok ps else .error .jsonDecodeError
      | Option.none => .error .jsonDecodeError
  | _ => .error .jsonDecodeError

/-- Python `dict.get(k, dflt)` on a decoded JSON object (duplicate keys:
the last binding wins, as in `json.loads`). -/
def dictGet (d : List (String × PyVal)) (k : String) (dflt : PyVal) : PyVal :=
  match d.reverse.find? (fun kv => kv.1 = k) with
  | some kv => kv.2
  | Option.none => dflt

/-! ## Rounding

Python `round(x, n)` rounds half to even. All quantities the code rounds
are modelled as exact rationals, on which this is the exact
round-half-to-even of the decimal value. -/

/-- Round half to even, to an integer. -/
def roundHalfEven (q : ℚ) : ℤ :=
  let f := ⌊q⌋
  let r := q - f
  if r < 1/2 then f
  else if 1/2 < r then f + 1
  else if f % 2 = 0 then f else f + 1

/-- Python `round(x, 2)`. -/
def round2 (q : ℚ) : ℚ := (roundHalfEven (q * 100) : ℚ) / 100

/-- Python `round(x, 3)`. -/
def round3 (q : ℚ) : ℚ := (roundHalfEven (q * 1000) : ℚ) / 1000

/-! ## Shared workflow state (src/agents/state.py) -/

/-- One entry of the `code_changes` list: `\x7bfile, content, action\x7d`. -/
structure CodeChange where
  file : String
  content : String
  action : String
  deriving DecidableEq, Repr

/-- The `test_results` dict. Keys the code may leave absent are modelled
with the defaults every call site supplies to `.get` (`passed`/`failed`
default `0`, `output`/`summary` default `""`, `error` absent). The whole
dict being empty/absent is `Option.none` at the field using it. -/
structure TestResults where
  success : Bool
  passed : Nat := 0
  failed : Nat := 0
  output : String := ""
  summary : String := ""
  error : Option String := Option.none
  deriving DecidableEq, Repr

/-- The `existing_context` dict gathered by the Implementer. -/
structure ExistingContext where
  commits : String := ""
  pr_comments : String := ""
  review_comments : String := ""
  deriving DecidableEq, Repr

/-- Default confidence dict (`default_confidence` in state.py). -/
def default_confidence : List (String × ℚ) :=
  [("routing", 0), ("planning", 0), ("implementation", 0), ("testing", 0), ("overall", 0)]

/-- Python dict assignment `d[k] = v` on a string-keyed map, preserving
insertion order. -/
def qSet (d : List (String × ℚ)) (k : String) (v : ℚ) : List (String × ℚ) :=
  if d.any (fun kv => kv.1 = k) then d.map (fun kv => if kv.1 = k then (k, v) else kv)
  else d ++ [(k, v)]

/-- Python `d.get(k, 0)` on a string-keyed map. -/
def qGet (d : List (String × ℚ)) (k : String) : ℚ :=
  match d.find? (fun kv => kv.1 = k) with
  | some kv => kv.2
  | Option.none => 0

/-- The `AgentState` dataclass (state.py). Dicts that default to `\x7b\x7d` are
modelled as `Option` values defaulting to `Option.none`; `jira_details`
is kept as a decoded-object map since the routing and reporting logic
never inspect more than its truthiness and prompt text. -/
structure AgentState where
  jira_ticket_id : String := ""
  jira_details : List (String × PyVal) := []
  branch_name : String := ""
  implementation_plan : String := ""
  repo_path : String := ""
  code_changes : List CodeChange := []
  test_results : Option TestResults := Option.none
  test_iterations : Nat := 0
  fix_suggestions : String := ""
  branch_exists : Bool := false
  existing_context : Option ExistingContext := Option.none
  skip_implementation : Bool := false
  pr_url : String := ""
  pr_number : Nat := 0
  route : Option String := Option.none
  status : String := "pending"
  error : Option String := Option.none
  confidence : List (String × ℚ) := default_confidence
  deriving Repr

/-- A freshly constructed `AgentState()`. -/
def initialState : AgentState := {}

/-! ## Router (src/agents/supervisor.py) -/

namespace SupervisorAgent

def MAX_TEST_ITERATIONS : Nat := 3

/-- The valid route set checked by `_parse_response`. -/
def validRoutes : List String := ["planner", "implementer", "tester", "reporter", "done"]

/-- Conjunct `state.test_results and state.test_results.get("success")`:
the dict is non-empty and its success value truthy. -/
def testResultsSuccess (s : AgentState) : Bool :=
  match s.test_results with
  | some tr => tr.success
  | Option.none => false

/-- The deterministic decision tree `SupervisorAgent._fallback_route`,
translated clause for clause from the source. -/
def fallback_route (s : AgentState) : String :=
  if s.pr_url ≠ "" then "done"
  else if testResultsSuccess s then "reporter"
  else if s.skip_implementation then "tester"
  else if (match s.test_results with
           | some tr => !tr.success && s.fix_suggestions ≠ ""
           | Option.none => false) then "implementer"
  else if s.code_changes ≠ [] then "tester"
  else if s.implementation_plan ≠ "" then "implementer"
  else "planner"

/-- The body of the `try` block of `_parse_response`: regex-extract a
braced region, JSON-decode it and read `route` (lowercased), `confidence`
(converted with `float`) and `reason` out of it; without a braced region
the whole lowercased response is the route with confidence 0.5. Errors
are the exceptions the corresponding Python expressions raise. -/
def parseAttempt (content : String) : Except PyErr (String × ℚ × PyVal) :=
  match braceSearch content.data with
  | some region => do
    let data ← jsonLoads (String.mk region)
    let route ← pyLower (dictGet data "route" (PyVal.str ""))
    let confidence ← pyFloat (dictGet data "confidence" (PyVal.float (1/2)))
    pure (route, confidence, dictGet data "reason" (PyVal.str ""))
  | Option.none => .ok (strLower content, 1/2, PyVal.str "")

/-- The parse attempt with its `except (json.JSONDecodeError, ValueError)`
handler, followed by the valid-route check of `_parse_response`; other
exception classes propagate. This is the chosen route before the
iteration cap is applied. -/
def routeAndConf (content : String) (s : AgentState) : Except PyErr (String × ℚ × PyVal) :=
  let attempted : Except PyErr (String × ℚ × PyVal) :=
    match parseAttempt content with
    | .ok r => .ok r
    | .error e =>
      if e = PyErr.jsonDecodeError ∨ e = PyErr.valueError then
        .ok (fallback_route s, 3/10, PyVal.str "fallback routing")
      else .error e
  match attempted with
  | .error e => .error e
  | .ok (route, confidence, reason) =>
    if route ∈ validRoutes then .ok (route, confidence, reason)
    else .ok (fallback_route s, 3/10, PyVal.str "invalid route, using fallback")

/-- `SupervisorAgent._parse_response`: the validated choice, then the hard
iteration cap, then the confidence clamp. -/
def parse_response (content : String) (s : AgentState) : Except PyErr (String × ℚ × PyVal) :=
  match routeAndConf content s with
  | .error e => .error e
  | .ok (route, confidence, reason) =>
    let capped : String × PyVal :=
      if route = "tester" ∧ s.test_iterations ≥ MAX_TEST_ITERATIONS then
        ("reporter", PyVal.str ("max test iterations reached (" ++ toString MAX_TEST_ITERATIONS ++ ")"))
      else (route, reason)
    .ok (capped.1, min (max confidence 0) 1, capped.2)

/-- `SupervisorAgent.route`, given the text the completion provider
returned for the routing prompt: record the parsed route and routing
confidence on the state (prompt construction is pure formatting and does
not influence the result). -/
def route (content : String) (s : AgentState) : Except PyErr AgentState :=
  match parse_response content s with
  | .error e => .error e
  | .ok (r, confidence, _reason) =>
    .ok { s with route := some r, confidence := qSet s.confidence "routing" confidence }

end SupervisorAgent

/-! ## Graph-level confidence (src/agents/graph.py) -/

/-- `calc_overall_confidence`: fixed weighted sum of the four per-step
scores, rounded to 3 decimals. -/
def calc_overall_confidence (confidence : List (String × ℚ)) : ℚ :=
  let weights : List (String × ℚ) :=
    [("routing", 1/10), ("planning", 2/10), ("implementation", 3/10), ("testing", 4/10)]
  round3 ((weights.map (fun kv => qGet confidence kv.1 * kv.2)).sum)

/-! ## Planner (src/agents/planner.py) -/

namespace PlannerAgent

/-- A Jira comment as consumed by the confidence heuristic (only the
length of the list matters to it). -/
structure JiraComment where
  author : String := ""
  body : String := ""
  deriving DecidableEq, Repr

/-- Bonus `+0.1 if summary and len(summary) > 10`. -/
def summaryBonus (summary : String) : ℚ :=
  if summary ≠ "" ∧ summary.length > 10 then 1/10 else 0

/-- Bonus `+0.15`/`+0.08` for the two description length thresholds. -/
def descriptionBonus (description : String) : ℚ :=
  if description ≠ "" ∧ description.length > 50 then 15/100
  else if description ≠ "" ∧ description.length > 20 then 8/100 else 0

/-- Bonus `+0.05` for any comments and `+0.05` more for at least 3. -/
def commentsBonus (comments : List JiraComment) : ℚ :=
  (if comments ≠ [] ∧ comments.length > 0 then 5/100 else 0)
    + (if comments ≠ [] ∧ comments.length ≥ 3 then 5/100 else 0)

/-- Bonus `+0.1` for a plan over 200 characters and `+0.05` when the
lowercased plan mentions `test`, `component` or `file`. -/
def planBonus (plan : String) : ℚ :=
  (if plan ≠ "" ∧ plan.length > 200 then 1/10 else 0)
    + (if plan ≠ "" ∧ (pyIn "test" (strLower plan) || pyIn "component" (strLower plan)
          || pyIn "file" (strLower plan)) then 5/100 else 0)

/-- `PlannerAgent._calculate_confidence`, translated clause for clause:
base 0.5 plus the summary, description, comment and plan bonuses, rounded
to 2 decimals and capped at 1.0. -/
def calculate_confidence (summary description : String) (comments : List JiraComment)
    (plan : String) : ℚ :=
  min (round2 (1/2 + summaryBonus summary + descriptionBonus description
    + commentsBonus comments + planBonus plan)) 1

end PlannerAgent

/-! ## Tester (src/agents/tester.py) -/

/-- Result of `run_command`: `success` is exactly `returncode == 0`
(src/tools/filesystem.py). -/
structure CommandResult where
  success : Bool
  stdout : String := ""
  stderr : String := ""
  deriving DecidableEq, Repr

namespace TesterAgent

/-- Leftmost match of the regex `(\d+)` followed by the literal `word`
(as in `re.search(r"(\d+) passed", output)`): at the first position from
which one or more digits are followed by `word`, the maximal digit run
starting there, as a number. Positions inside one digit run all share the
same continuation after the run, so scanning them one by one finds
exactly the leftmost regex match with its greedy digit group. -/
def reSearchCount (word : List Char) : List Char → Option Nat
  | [] => Option.none
  | c :: rest =>
    if c.isDigit && word.isPrefixOf (rest.dropWhile Char.isDigit) then
      some (digitsToNat (c :: rest.takeWhile Char.isDigit))
    else reSearchCount word rest

/-- `TesterAgent._run_tests`, applied to the result of the test command:
concatenate stdout and stderr, extract the first `N passed` / `N failed`
counts when the output mentions `Tests:`, declare success exactly when
the process exited 0 and the failed count is 0, store the last 2000
characters of output. -/
def run_tests (result : CommandResult) : TestResults :=
  let output := result.stdout ++ result.stderr
  let passed : Nat :=
    if pyIn "Tests:" output then (reSearchCount " passed".data output.data).getD 0 else 0
  let failed : Nat :=
    if pyIn "Tests:" output then (reSearchCount " failed".data output.data).getD 0 else 0
  { success := result.success && failed == 0
    passed := passed
    failed := failed
    output := strTakeRight output 2000
    summary := toString passed ++ " passed, " ++ toString failed ++ " failed" }

/-- `TesterAgent._calculate_confidence` (the empty-dict guard of the
source is unreachable here because `_run_tests` always returns a
populated dict). -/
def calculate_confidence (tr : TestResults) (iterations : Nat) : ℚ :=
  let total := tr.passed + tr.failed
  let score : ℚ :=
    if tr.success then
      85/100 + (if total > 0 then 1/10 else 0) + (if total ≥ 5 then 5/100 else 0)
    else
      if total > 0 then 3/10 + ((tr.passed : ℚ) / (total : ℚ)) * (4/10)
      else 3/10
  let score := score - ((iterations : ℚ) - 1) * (1/10)
  min (max (round2 score) (1/10)) 1

/-- Environment of one Tester step: the outcome of the test-suite command
invocation (`Except.error` when `run_command.invoke` raises) and, when a
completion provider is configured, the outcome of the fix-suggestion
call. -/
structure Env where
  runTests : Except String CommandResult
  llm : Option (Except String String)
  deriving Repr

/-- `TesterAgent.run`: on a completed test command, increment the
iteration counter, record results, status and confidence, and on failure
below the iteration cap ask the provider for fix suggestions (storing the
first 3000 characters). An exception from either external call is caught
by the step-boundary handler, which sets `error` and overwrites
`test_results` but leaves `status` untouched. -/
def run (env : Env) (s : AgentState) : AgentState :=
  match env.runTests with
  | .error e =>
    { s with error := some ("Tester error: " ++ e)
             test_results := some { success := false, error := some e } }
  | .ok cmdResult =>
    let tr := run_tests cmdResult
    let s1 := { s with test_iterations := s.test_iterations + 1
                       test_results := some tr
                       status := "testing" }
    let s1 := { s1 with confidence := qSet s1.confidence "testing"
                          (calculate_confidence tr s1.test_iterations) }
    if tr.success then s1
    else
      match env.llm with
      | some fixOutcome =>
        if s1.test_iterations < 3 then
          match fixOutcome with
          | .ok text => { s1 with fix_suggestions := strTake text 3000 }
          | .error e =>
            { s1 with error := some ("Tester error: " ++ e)
                      test_results := some { success := false, error := some e } }
        else s1
      | Option.none => s1

end TesterAgent

/-! ## Implementer (src/agents/implementer.py) -/

namespace ImplementerAgent

/-- Result of `_clone_and_setup`. -/
structure CloneSetupResult where
  success : Bool
  error : String := ""
  branch_exists : Bool := false
  deriving DecidableEq, Repr

/-- Shell results consumed by `_clone_and_setup`: the `rm -rf && git
clone` command and the `git ls-remote --heads origin <branch>` probe (the
git-config, checkout and `npm install` commands are invoked but their
results are ignored by the source). -/
structure RunnerEnv where
  cloneResult : CommandResult
  lsRemoteResult : CommandResult
  deriving DecidableEq, Repr

/-- `ImplementerAgent._clone_and_setup`: fail with the clone stderr when
the clone command fails, otherwise report whether the branch pre-exists
on the remote (non-empty stripped `ls-remote` output). -/
def clone_and_setup (env : RunnerEnv) : CloneSetupResult :=
  if !env.cloneResult.success then
    { success := false, error := env.cloneResult.stderr }
  else
    { success := true, branch_exists := strStrip env.lsRemoteResult.stdout ≠ "" }

/-- `ImplementerAgent._check_completion`, applied to the completion
provider response (the sampled source files and commit history only feed
the prompt and cannot influence the decision): JSON-decode the first
braced region and take the truthiness of its `complete` value; on a
missing region or a decode failure, fall back to searching the lowercased
response for a literal `"complete": true`. -/
def check_completion (response : String) : Bool :=
  let content := strLower response
  let fallback :=
    pyIn ("\"complete\": true") content || pyIn ("\"complete\":true") content
  match braceSearch response.data with
  | some region =>
    match jsonLoads (String.mk region) with
    | .ok data => pyTruthy (dictGet data "complete" (PyVal.bool false))
    | .error _ => fallback
  | Option.none => fallback

/-- `ImplementerAgent._placeholder_implementation`: the deterministic
single-file change used when no provider is configured or code parsing
yields nothing. -/
def placeholder_implementation : List CodeChange :=
  [{ file := "src/components/Feature.jsx"
     content := "import React from 'react';\n" -- full JSX body elided: no claim reads it
     action := "create" }]

/-- Environment of one Implementer step. `generatedChanges` stands for
the output of `_generate_implementation` (prompting plus
`_parse_code_response`); no claim depends on that parsing, and the
`changes if changes else placeholder` guard of the source is applied to
it below. -/
structure Env where
  runner : RunnerEnv
  gathered : ExistingContext
  llm : Bool
  completionResponse : String
  generatedChanges : List CodeChange
  deriving Repr

/-- `ImplementerAgent.run`. Returns the updated state together with the
list of `(path, content)` file writes performed by `_write_files`. -/
def run (env : Env) (s : AgentState) : AgentState × List (String × String) :=
  let repo_path := if s.repo_path ≠ "" then s.repo_path else "/tmp/project_" ++ s.jira_ticket_id
  let clone := clone_and_setup env.runner
  if !clone.success then
    ({ s with error := some ("Repository setup failed: " ++ clone.error)
              status := "failed" }, [])
  else
    let s1 := { s with repo_path := repo_path, branch_exists := clone.branch_exists }
    let s1 :=
      if clone.branch_exists then { s1 with existing_context := some env.gathered } else s1
    if clone.branch_exists && env.llm && check_completion env.completionResponse then
      ({ s1 with skip_implementation := true
                 status := "implementing"
                 confidence := qSet s1.confidence "implementation" (9/10) }, [])
    else
      let code_changes :=
        if env.llm then
          (if env.generatedChanges ≠ [] then env.generatedChanges else placeholder_implementation)
        else placeholder_implementation
      let writes := code_changes.map (fun c => (repo_path ++ "/" ++ c.file, c.content))
      ({ s1 with code_changes := code_changes
                 status := "implementing"
                 confidence := qSet s1.confidence "implementation" (7/10) }, writes)

end ImplementerAgent

/-! ## Reporter (src/agents/reporter.py) -/

namespace ReporterAgent

/-- A pull request as returned by the source-host client. -/
structure PRInfo where
  number : Nat
  headRef : String
  html_url : String
  deriving DecidableEq, Repr

/-- Environment of one Reporter step: outcomes of the external calls. The
push result only reaches a log line; the Jira and Discord outcomes are
swallowed by their own handlers; `openPRs` (`list_pull_requests`) and
`prComment` (`create_pr_comment`) raise through to the step boundary,
while a `createPR` (`create_pull_request`) exception is swallowed inside
`_create_or_update_pr`. -/
structure Env where
  pushResult : CommandResult
  openPRs : Except String (List PRInfo)
  createPR : Except String PRInfo
  prComment : Except String Unit
  jiraComment : Except String Unit
  jiraTransition : Except String Unit
  discordNotify : Except String Unit
  deriving Repr

/-- `ReporterAgent._create_or_update_pr`: reuse the open pull request
whose head ref equals the branch (commenting on it), otherwise create a
new one, swallowing any creation failure by returning no PR. -/
def create_or_update_pr (env : Env) (s : AgentState) : Except String (Option PRInfo) :=
  match env.openPRs with
  | .error e => .error e
  | .ok prs =>
    match prs.find? (fun pr => pr.headRef = s.branch_name) with
    | some existing =>
      match env.prComment with
      | .error e => .error e
      | .ok _ => .ok (some existing)
    | Option.none =>
      match env.createPR with
      | .ok pr => .ok (some pr)
      | .error _ => .ok Option.none

/-- `ReporterAgent.run`: commit/push (result only logged), create or
update the PR, record its URL and number when one exists, update Jira and
notify Discord (failures swallowed), and finish with status `done`. An
exception escaping `_create_or_update_pr` is caught at the step boundary
and converted to status `failed`. -/
def run (env : Env) (s : AgentState) : AgentState :=
  match create_or_update_pr env s with
  | .error e =>
    { s with error := some ("Reporter error: " ++ e), status := "failed" }
  | .ok prOpt =>
    let s1 :=
      match prOpt with
      | some pr => { s with pr_url := pr.html_url, pr_number := pr.number }
      | Option.none => s
    { s1 with status := "done" }

end ReporterAgent

/-! ## Helper lemmas -/

/-- The deterministic fallback only ever returns a valid route name. -/
theorem fallback_route_mem_validRoutes (s : AgentState) :
    SupervisorAgent.fallback_route s ∈ SupervisorAgent.validRoutes := by
  unfold SupervisorAgent.fallback_route SupervisorAgent.validRoutes
  split_ifs <;> simp

/-! ## Claim C2 -/

/-- Modelled from the spec: the phrase `tests succeeded` of the fallback
priority list. -/
def specTestsSucceeded (s : AgentState) : Bool :=
  match s.test_results with
  | some tr => tr.success
  | Option.none => false

/-- Modelled from the spec: the phrase `tests failed` of the fallback
priority list. -/
def specTestsFailed (s : AgentState) : Bool :=
  match s.test_results with
  | some tr => !tr.success
  | Option.none => false

/-- Modelled from the spec: the fallback priority list, clause by clause
in the order the spec gives it, to be compared with the translation of
`SupervisorAgent._fallback_route` from the source. -/
def fallbackRouteSpec (s : AgentState) : String :=
  if s.pr_url ≠ "" then "done"
  else if specTestsSucceeded s then "reporter"
  else if s.skip_implementation then "tester"
  else if specTestsFailed s ∧ s.fix_suggestions ≠ "" then "implementer"
  else if s.code_changes ≠ [] then "tester"
  else if s.implementation_plan ≠ "" then "implementer"
  else "planner"

/-- C2: for every workflow state the fallback routing function returns
exactly the first matching case of the priority order pr_url → done,
tests succeeded → reporter, skip_implementation → tester, tests failed
with fix suggestions → implementer, code changes → tester, plan →
implementer, else planner; in particular a state with pr_url set always
falls back to done. -/
theorem fallback_route_follows_spec_priority (s : AgentState) :
    SupervisorAgent.fallback_route s = fallbackRouteSpec s ∧
    (s.pr_url ≠ "" → SupervisorAgent.fallback_route s = "done") := by
  constructor
  · unfold SupervisorAgent.fallback_route fallbackRouteSpec
    rcases h : s.test_results with _ | tr <;>
      simp [specTestsSucceeded, specTestsFailed, SupervisorAgent.testResultsSuccess, h]
  · intro h
    unfold SupervisorAgent.fallback_route
    simp [h]

/-- Witness for C2 at a concrete state with a pull-request URL. -/
theorem fallback_route_follows_spec_priority_witness :
    ({ initialState with pr_url := "https://github.com/o/r/pull/1" } : AgentState).pr_url ≠ "" ∧
    SupervisorAgent.fallback_route { initialState with pr_url := "https://github.com/o/r/pull/1" } = "done" :=
  ⟨by decide,
   (fallback_route_follows_spec_priority
     { initialState with pr_url := "https://github.com/o/r/pull/1" }).2 (by decide)⟩

/-! ## Claim C1 -/

/-- C1: whenever the chosen route of the response parser (from the
provider response or from the fallback, after the validity check) is
`tester` and the state has reached 3 test iterations, the hard cap
overrides the decision and `route()` returns `reporter`. -/
theorem iteration_cap_overrides_tester (content : String) (s : AgentState)
    (hiter : s.test_iterations ≥ SupervisorAgent.MAX_TEST_ITERATIONS)
    (c : ℚ) (reason : PyVal)
    (hchosen : SupervisorAgent.routeAndConf content s = .ok ("tester", c, reason)) :
    SupervisorAgent.parse_response content s =
      .ok ("reporter", min (max c 0) 1, PyVal.str "max test iterations reached (3)") ∧
    SupervisorAgent.route content s =
      .ok { s with route := some "reporter"
                   confidence := qSet s.confidence "routing" (min (max c 0) 1) } := by
  have h1 : SupervisorAgent.parse_response content s =
      .ok ("reporter", min (max c 0) 1, PyVal.str "max test iterations reached (3)") := by
    unfold SupervisorAgent.parse_response
    rw [hchosen]
    have hiter3 : 3 ≤ s.test_iterations := hiter
    simp [hiter3, SupervisorAgent.MAX_TEST_ITERATIONS]
    decide
  refine ⟨h1, ?_⟩
  unfold SupervisorAgent.route
  rw [h1]

/-- Witness for C1: a provider answer requesting tester at 3 iterations. -/
theorem iteration_cap_overrides_tester_witness :
    ({ initialState with test_iterations := 3 } : AgentState).test_iterations ≥
      SupervisorAgent.MAX_TEST_ITERATIONS ∧
    SupervisorAgent.parse_response "\x7b\"route\": \"tester\", \"confidence\": 0.9\x7d"
        { initialState with test_iterations := 3 } =
      .ok ("reporter", min (max (9/10 : ℚ) 0) 1, PyVal.str "max test iterations reached (3)") :=
  ⟨by decide,
   (iteration_cap_overrides_tester "\x7b\"route\": \"tester\", \"confidence\": 0.9\x7d"
     { initialState with test_iterations := 3 } (by decide) (9/10) (PyVal.str "")
     (by simp [SupervisorAgent.routeAndConf, SupervisorAgent.parseAttempt, braceSearch,
       jsonLoads, parseJPairs, parseJValue, parseJScalar, parseJString, parseJNumber,
       skipWs, isJsonWs, digitsToNat, dictGet, pyLower, pyFloat, strLower,
       SupervisorAgent.validRoutes, Except.bind, Except.map, bind, Bind.bind,
       Functor.map, pure, Except.pure])).1⟩

/-! ## Claim C3 -/

/-- C3 counterexample: the response parser can raise. On the response
text consisting of the JSON object with a null route value, the braced
region decodes, `data.get("route", "").lower()` is evaluated on `None`,
and the resulting `AttributeError` is not in the caught exception classes
`(json.JSONDecodeError, ValueError)`, so `_parse_response` propagates it
instead of returning a triple. -/
theorem parse_response_can_raise :
    SupervisorAgent.parse_response "\x7b\"route\": null\x7d" initialState =
      .error PyErr.attributeError := by
  simp [SupervisorAgent.parse_response, SupervisorAgent.routeAndConf,
    SupervisorAgent.parseAttempt, braceSearch, jsonLoads, parseJPairs, parseJValue,
    parseJScalar, parseJString, parseJNumber, skipWs, isJsonWs, digitsToNat, dictGet,
    pyLower, pyFloat, strLower, SupervisorAgent.validRoutes, Except.bind, Except.map,
    bind, Bind.bind, Functor.map, pure, Except.pure]

/-- The validated-choice stage only propagates the exceptions of the
parse attempt that the handler does not catch. -/
theorem routeAndConf_error_inv (content : String) (s : AgentState) (e : PyErr) :
    SupervisorAgent.routeAndConf content s = .error e →
      SupervisorAgent.parseAttempt content = .error e ∧
        ¬(e = PyErr.jsonDecodeError ∨ e = PyErr.valueError) := by
  intro he
  unfold SupervisorAgent.routeAndConf at he
  rcases h : SupervisorAgent.parseAttempt content with e0 | r
  · rw [h] at he
    by_cases hc : e0 = PyErr.jsonDecodeError ∨ e0 = PyErr.valueError
    · simp [hc, fallback_route_mem_validRoutes s] at he
    · simp [hc] at he
      subst he
      exact ⟨rfl, hc⟩
  · rw [h] at he
    by_cases hv : r.1 ∈ SupervisorAgent.validRoutes <;> simp [hv] at he

/-- C3 (amended): the response parser never lets a decoding failure
escape — a JSON decode error or a `ValueError` from the confidence
conversion degrades to the deterministic fallback and the parse returns a
triple — but it is not exception-free: the only exceptions it can
propagate are the `TypeError`/`AttributeError` raised when a decoded
route value is not a string or a decoded confidence value is an
inconvertible type. -/
theorem parse_response_error_classes (content : String) (s : AgentState) :
    (∀ e, SupervisorAgent.parse_response content s = .error e →
      e = PyErr.typeError ∨ e = PyErr.attributeError) ∧
    ((SupervisorAgent.parseAttempt content = .error PyErr.jsonDecodeError ∨
      SupervisorAgent.parseAttempt content = .error PyErr.valueError) →
      ∃ r, SupervisorAgent.parse_response content s = .ok r) := by
  have hmem := fallback_route_mem_validRoutes s
  constructor
  · intro e he
    unfold SupervisorAgent.parse_response at he
    rcases hrc : SupervisorAgent.routeAndConf content s with e0 | r
    · rw [hrc] at he
      simp at he
      rcases routeAndConf_error_inv content s e0 hrc with ⟨_, hnc⟩
      rw [← he]
      cases e0 <;> simp_all
    · rw [hrc] at he
      simp at he
  · intro hcaught
    rcases hcaught with h | h <;>
    · unfold SupervisorAgent.parse_response SupervisorAgent.routeAndConf
      rw [h]
      simp [hmem]

/-- Witness for C3 (amended), applying it at a response that raises
`TypeError` (null confidence) and at one whose braced region fails to
decode. -/
theorem parse_response_error_classes_witness :
    (PyErr.typeError = PyErr.typeError ∨ PyErr.typeError = PyErr.attributeError) ∧
    ∃ r, SupervisorAgent.parse_response "so \x7bnot json\x7d" initialState = .ok r :=
  ⟨(parse_response_error_classes "\x7b\"route\": \"done\", \"confidence\": null\x7d"
      initialState).1 PyErr.typeError
      (by simp [SupervisorAgent.parse_response, SupervisorAgent.routeAndConf,
        SupervisorAgent.parseAttempt, braceSearch, jsonLoads, parseJPairs, parseJValue,
        parseJScalar, parseJString, parseJNumber, skipWs, isJsonWs, digitsToNat, dictGet,
        pyLower, pyFloat, strLower, SupervisorAgent.validRoutes, Except.bind, Except.map,
        bind, Bind.bind, Functor.map, pure, Except.pure]),
   (parse_response_error_classes "so \x7bnot json\x7d" initialState).2
      (Or.inl (by simp [SupervisorAgent.parseAttempt, braceSearch, jsonLoads,
        parseJPairs, parseJValue, parseJScalar, parseJString, parseJNumber, skipWs,
        isJsonWs, Except.bind, bind, Bind.bind]))⟩

/-! ## Claim C4 -/

/-- C4 counterexample: a brace-free response that is exactly a route name
is not a structured route/confidence/reason decision, yet the parser
accepts it directly with confidence 0.5 — it does not use the fallback
route (here `planner`) or the fixed fallback confidence 0.3. -/
theorem bare_route_name_bypasses_fallback :
    SupervisorAgent.parse_response "done" initialState =
      .ok ("done", 1/2, PyVal.str "") ∧
    braceSearch "done".data = Option.none ∧
    SupervisorAgent.fallback_route initialState = "planner" := by
  refine ⟨?_, by rfl, by rfl⟩
  simp [SupervisorAgent.parse_response, SupervisorAgent.routeAndConf,
    SupervisorAgent.parseAttempt, braceSearch, strLower, SupervisorAgent.validRoutes,
    SupervisorAgent.MAX_TEST_ITERATIONS, initialState]
  norm_num

/-- C4 (amended): the parser uses the deterministic fallback route with
fixed confidence 0.3 on a caught decoding failure (JSON decode error or
`ValueError`) and whenever the derived route — the decoded route value,
or the whole lowercased response when no braced region exists — lies
outside the valid set; a brace-free response that is itself a valid route
name is instead accepted directly with confidence 0.5. -/
theorem unparsed_or_invalid_uses_fallback (content : String) (s : AgentState) :
    (∀ e, SupervisorAgent.parseAttempt content = .error e →
        (e = PyErr.jsonDecodeError ∨ e = PyErr.valueError) →
        SupervisorAgent.routeAndConf content s =
          .ok (SupervisorAgent.fallback_route s, 3/10, PyVal.str "fallback routing")) ∧
    (∀ r c reason, SupervisorAgent.parseAttempt content = .ok (r, c, reason) →
        r ∉ SupervisorAgent.validRoutes →
        SupervisorAgent.routeAndConf content s =
          .ok (SupervisorAgent.fallback_route s, 3/10, PyVal.str "invalid route, using fallback")) := by
  have hmem := fallback_route_mem_validRoutes s
  constructor
  · intro e he hc
    unfold SupervisorAgent.routeAndConf
    rw [he]
    simp [hc, hmem]
  · intro r c reason hok hinv
    unfold SupervisorAgent.routeAndConf
    rw [hok]
    simp [hinv]

/-- Witness for C4 (amended) at the brace-free response `garbage`, whose
lowercasing is not a valid route name. -/
theorem unparsed_or_invalid_uses_fallback_witness :
    SupervisorAgent.parseAttempt "garbage" = .ok ("garbage", 1/2, PyVal.str "") ∧
    SupervisorAgent.routeAndConf "garbage" initialState =
      .ok (SupervisorAgent.fallback_route initialState, 3/10,
        PyVal.str "invalid route, using fallback") :=
  ⟨by simp [SupervisorAgent.parseAttempt, braceSearch, strLower],
   (unparsed_or_invalid_uses_fallback "garbage" initialState).2 "garbage" (1/2)
     (PyVal.str "")
     (by simp [SupervisorAgent.parseAttempt, braceSearch, strLower])
     (by decide)⟩

/-! ## Claim C5 -/

/-- C5: the overall confidence equals the fixed weighted sum
0.1·routing + 0.2·planning + 0.3·implementation + 0.4·testing rounded to
3 decimals; all-ones gives 1.0, all-absent gives 0.0, and routing 0.5
alone gives 0.05. -/
theorem overall_confidence_weighted_sum (conf : List (String × ℚ)) :
    calc_overall_confidence conf =
      round3 (qGet conf "routing" * (1/10) + qGet conf "planning" * (2/10)
        + qGet conf "implementation" * (3/10) + qGet conf "testing" * (4/10)) ∧
    calc_overall_confidence
      [("routing", 1), ("planning", 1), ("implementation", 1), ("testing", 1)] = 1 ∧
    calc_overall_confidence [] = 0 ∧
    calc_overall_confidence [("routing", 1/2)] = 1/20 := by
  refine ⟨?_, ?_, ?_, ?_⟩
  · unfold calc_overall_confidence
    simp only [List.map_cons, List.map_nil, List.sum_cons, List.sum_nil]
    exact congrArg round3 (by ring)
  · simp [calc_overall_confidence, qGet, round3, roundHalfEven]
    norm_num
  · simp [calc_overall_confidence, qGet, round3, roundHalfEven]
  · simp [calc_overall_confidence, qGet, round3, roundHalfEven]
    norm_num

/-! ## Claim C6 -/

/-- C6 counterexample: the count extraction takes the first regex match
in the whole console output, not the match inside the `Tests:` summary.
This output contains the exact text `Tests: 12 passed, 0 failed` and the
process exited 0, yet the parser yields passed = 1, failed = 2 and
success = false, because earlier occurrences of `1 passed` and
`2 failed` win. -/
theorem tester_parsing_first_match_counterexample :
    pyIn "Tests: 12 passed, 0 failed"
      ("1 passed 2 failed Tests: 12 passed, 0 failed" ++ "") = true ∧
    (TesterAgent.run_tests
      { success := true, stdout := "1 passed 2 failed Tests: 12 passed, 0 failed"
        stderr := "" }).passed = 1 ∧
    (TesterAgent.run_tests
      { success := true, stdout := "1 passed 2 failed Tests: 12 passed, 0 failed"
        stderr := "" }).failed = 2 ∧
    (TesterAgent.run_tests
      { success := true, stdout := "1 passed 2 failed Tests: 12 passed, 0 failed"
        stderr := "" }).success = false := by
  refine ⟨by decide, ?_, ?_, ?_⟩ <;> decide

/-- C6 (amended): for every console output whose first `N passed` and
`N failed` regex matches carry the counts of the quoted summary and which
mentions `Tests:`, the parser yields those counts; success holds exactly
for a zero exit status together with zero failed count, so the 3/2 case
reports failure even on a zero exit status. -/
theorem tester_parsing_counts (r : CommandResult) :
    (TesterAgent.reSearchCount " passed".data (r.stdout ++ r.stderr).data = some 12 →
     TesterAgent.reSearchCount " failed".data (r.stdout ++ r.stderr).data = some 0 →
     pyIn "Tests:" (r.stdout ++ r.stderr) = true →
     r.success = true →
     (TesterAgent.run_tests r).passed = 12 ∧ (TesterAgent.run_tests r).failed = 0 ∧
       (TesterAgent.run_tests r).success = true) ∧
    (TesterAgent.reSearchCount " passed".data (r.stdout ++ r.stderr).data = some 3 →
     TesterAgent.reSearchCount " failed".data (r.stdout ++ r.stderr).data = some 2 →
     pyIn "Tests:" (r.stdout ++ r.stderr) = true →
     (TesterAgent.run_tests r).passed = 3 ∧ (TesterAgent.run_tests r).failed = 2 ∧
       (TesterAgent.run_tests r).success = false) := by
  constructor
  · intro h1 h2 h3 h4
    simp at h1 h2
    simp [TesterAgent.run_tests, h1, h2, h3, h4]
  · intro h1 h2 h3
    simp at h1 h2
    simp [TesterAgent.run_tests, h1, h2, h3]

/-- Witness for C6 (amended) at the two canonical summaries with a zero
exit status. -/
theorem tester_parsing_counts_witness :
    ((TesterAgent.run_tests { success := true, stdout := "Tests: 12 passed, 0 failed" }).passed = 12 ∧
     (TesterAgent.run_tests { success := true, stdout := "Tests: 12 passed, 0 failed" }).failed = 0 ∧
     (TesterAgent.run_tests { success := true, stdout := "Tests: 12 passed, 0 failed" }).success = true) ∧
    ((TesterAgent.run_tests { success := true, stdout := "Tests: 3 passed, 2 failed" }).passed = 3 ∧
     (TesterAgent.run_tests { success := true, stdout := "Tests: 3 passed, 2 failed" }).failed = 2 ∧
     (TesterAgent.run_tests { success := true, stdout := "Tests: 3 passed, 2 failed" }).success = false) :=
  ⟨(tester_parsing_counts { success := true, stdout := "Tests: 12 passed, 0 failed" }).1
      (by decide) (by decide) (by decide) (by decide),
   (tester_parsing_counts { success := true, stdout := "Tests: 3 passed, 2 failed" }).2
      (by decide) (by decide) (by decide)⟩

/-! ## Claim C7 -/

/-- C7 counterexample: when the test-execution call raises, the Tester
records the error and failure results but does not set status to
`failed` (it stays at its prior value, here `pending`); and when the
exception instead comes from the fix-suggestion provider call, the
iteration counter has already been incremented, so it is not unchanged. -/
theorem tester_exception_counterexample :
    (TesterAgent.run { runTests := .error "boom", llm := Option.none }
        initialState).status = "pending" ∧
    (TesterAgent.run { runTests := .error "boom", llm := Option.none }
        initialState).error = some "Tester error: boom" ∧
    (TesterAgent.run
        { runTests := .ok { success := false, stdout := "Tests: 0 passed, 1 failed" }
          llm := some (.error "llm down") } initialState).test_iterations = 1 ∧
    (TesterAgent.run
        { runTests := .ok { success := false, stdout := "Tests: 0 passed, 1 failed" }
          llm := some (.error "llm down") } initialState).error =
      some "Tester error: llm down" ∧
    initialState.test_iterations = 0 := by
  refine ⟨by rfl, by rfl, ?_, ?_, by rfl⟩ <;>
    simp [TesterAgent.run, TesterAgent.run_tests, TesterAgent.calculate_confidence,
      initialState, strTake, strTakeRight, pyIn, listContainsSub, TesterAgent.reSearchCount,
      digitsToNat, qSet]

/-- C7 (amended): an exception from the test-execution call leaves the
whole state unchanged except for the error message (prefixed
`Tester error: `) and the overwritten failure results — in particular
status and the iteration counter are untouched and status is never set
to `failed`; an exception from the fix-suggestion call instead arrives
after the increment, so the final state carries the incremented counter,
status `testing` and the recorded testing confidence alongside the same
error fields. -/
theorem tester_exception_semantics (env : TesterAgent.Env) (s : AgentState) :
    (∀ e, env.runTests = .error e →
      TesterAgent.run env s =
        { s with error := some ("Tester error: " ++ e)
                 test_results := some { success := false, error := some e } }) ∧
    (∀ cmd e, env.runTests = .ok cmd → (TesterAgent.run_tests cmd).success = false →
      env.llm = some (.error e) → s.test_iterations + 1 < 3 →
      TesterAgent.run env s =
        { s with test_iterations := s.test_iterations + 1
                 status := "testing"
                 confidence := qSet s.confidence "testing"
                   (TesterAgent.calculate_confidence (TesterAgent.run_tests cmd)
                     (s.test_iterations + 1))
                 error := some ("Tester error: " ++ e)
                 test_results := some { success := false, error := some e } }) := by
  constructor
  · intro e he
    unfold TesterAgent.run
    rw [he]
  · intro cmd e hcmd hfail hllm hiter
    unfold TesterAgent.run
    rw [hcmd, hllm]
    simp [hfail, hiter]

/-- Witness for C7 (amended): the test command raises on a fresh state. -/
theorem tester_exception_semantics_witness :
    TesterAgent.run { runTests := .error "boom", llm := Option.none } initialState =
      { initialState with
          error := some "Tester error: boom"
          test_results := some { success := false, error := some "boom" } } :=
  (tester_exception_semantics { runTests := .error "boom", llm := Option.none }
    initialState).1 "boom" (by rfl)

/-! ## Claim C8 -/

/-- C8 (amended): with a successful clone, a branch that pre-exists on
the remote, a configured provider and an affirmative completion check,
the Implementer sets skip_implementation, status `implementing` and
implementation confidence 0.9 and writes no files, leaving code_changes
and every remaining field unchanged — except that this path also records
repo_path, branch_exists and the gathered existing_context on the state
before short-circuiting. -/
theorem skip_implementation_path (env : ImplementerAgent.Env) (s : AgentState)
    (hclone : env.runner.cloneResult.success = true)
    (hbranch : strStrip env.runner.lsRemoteResult.stdout ≠ "")
    (hllm : env.llm = true)
    (hcomplete : ImplementerAgent.check_completion env.completionResponse = true) :
    ImplementerAgent.run env s =
      ({ s with repo_path := (if s.repo_path ≠ "" then s.repo_path
                              else "/tmp/project_" ++ s.jira_ticket_id)
                branch_exists := true
                existing_context := some env.gathered
                skip_implementation := true
                status := "implementing"
                confidence := qSet s.confidence "implementation" (9/10) }, []) := by
  unfold ImplementerAgent.run ImplementerAgent.clone_and_setup
  simp [hclone, hbranch, hllm, hcomplete]

/-- Concrete environment exercising the skip-implementation path. -/
def skipEnv : ImplementerAgent.Env :=
  { runner := { cloneResult := { success := true }
                lsRemoteResult := { success := true, stdout := "a1b2c3 refs/heads/DP-1" } }
    gathered := { commits := "a1b2c3 initial work" }
    llm := true
    completionResponse := "\x7b\"complete\": true\x7d"
    generatedChanges := [] }

/-- Fresh state for the ticket DP-1 before any Implementer pass. -/
def skipState : AgentState := { initialState with jira_ticket_id := "DP-1" }

/-- C8 counterexample: on the skip-implementation path the flag, status
and confidence are set and no file is written, but it is not true that
all other state fields are left unchanged: branch_exists flips to true,
repo_path is populated and existing_context is recorded. -/
theorem skip_implementation_changes_other_fields :
    (ImplementerAgent.run skipEnv skipState).1.skip_implementation = true ∧
    (ImplementerAgent.run skipEnv skipState).1.status = "implementing" ∧
    qGet (ImplementerAgent.run skipEnv skipState).1.confidence "implementation" = 9/10 ∧
    (ImplementerAgent.run skipEnv skipState).2 = [] ∧
    (ImplementerAgent.run skipEnv skipState).1.code_changes = skipState.code_changes ∧
    (ImplementerAgent.run skipEnv skipState).1.branch_exists = true ∧
    skipState.branch_exists = false ∧
    (ImplementerAgent.run skipEnv skipState).1.repo_path = "/tmp/project_DP-1" ∧
    skipState.repo_path = "" ∧
    (ImplementerAgent.run skipEnv skipState).1.existing_context = some skipEnv.gathered ∧
    skipState.existing_context = Option.none := by
  have h := skip_implementation_path skipEnv skipState (by rfl) (by decide) (by rfl)
    (by simp [ImplementerAgent.check_completion, braceSearch, jsonLoads, parseJPairs,
      parseJValue, parseJScalar, parseJString, parseJNumber, skipWs, isJsonWs,
      digitsToNat, dictGet, pyTruthy, strLower, skipEnv])
  rw [h]
  refine ⟨by rfl, by rfl, ?_, by rfl, by rfl, by rfl, by rfl, by rfl, by rfl, by rfl, by rfl⟩
  simp [qGet, qSet, skipState, initialState, default_confidence]

/-- Witness for C8 (amended) on the concrete skip environment. -/
theorem skip_implementation_path_witness :
    ImplementerAgent.run skipEnv skipState =
      ({ skipState with
           repo_path := (if skipState.repo_path ≠ "" then skipState.repo_path
                         else "/tmp/project_" ++ skipState.jira_ticket_id)
           branch_exists := true
           existing_context := some skipEnv.gathered
           skip_implementation := true
           status := "implementing"
           confidence := qSet skipState.confidence "implementation" (9/10) }, []) :=
  skip_implementation_path skipEnv skipState (by rfl) (by decide) (by rfl)
    (by simp [ImplementerAgent.check_completion, braceSearch, jsonLoads, parseJPairs,
      parseJValue, parseJScalar, parseJString, parseJNumber, skipWs, isJsonWs,
      digitsToNat, dictGet, pyTruthy, strLower, skipEnv])

/-! ## Claim C9 -/

/-- Rounding to two decimals fixes exact hundredths. -/
theorem round2_int (n : ℤ) : round2 ((n : ℚ) / 100) = (n : ℚ) / 100 := by
  unfold round2 roundHalfEven
  have h : ((n : ℚ) / 100) * 100 = (n : ℚ) := by ring
  rw [h, Int.floor_intCast]
  norm_num

/-- The substring scan decides list containment. -/
theorem listContainsSub_iff_occurs (n h : List Char) :
    listContainsSub n h = true ↔ n <:+: h := by
  induction h with
  | nil => simp [listContainsSub, List.infix_nil, List.isEmpty_iff]
  | cons c t ih =>
    simp [listContainsSub, List.isPrefixOf_iff_prefix, ih, List.infix_cons_iff]

/-- A needle that lowercasing fixes still occurs after the haystack is
lowercased. -/
theorem pyIn_strLower (needle hay : String)
    (hfix : needle.data.map Char.toLower = needle.data)
    (hc : pyIn needle hay = true) : pyIn needle (strLower hay) = true := by
  unfold pyIn at hc ⊢
  unfold strLower
  rw [listContainsSub_iff_occurs] at hc ⊢
  show needle.data <:+: hay.data.map Char.toLower
  rw [← hfix]
  exact hc.map Char.toLower

/-- A non-trivial length bound forces a non-empty string. -/
theorem ne_empty_of_length_gt (s : String) (n : Nat) (h : s.length > n) : s ≠ "" := by
  intro he
  rw [he] at h
  exact absurd h (Nat.not_lt_zero n)

/-- C9 (amended): a rich ticket — description over 50 characters, at
least 3 comments, plan over 200 characters mentioning `test` — scores at
least 0.9, and at least 0.95 exactly when the summary bonus (summary
longer than 10 characters) also applies; the minimal ticket — 5-character
summary, no description, no comments, 10-character plan — scores at most
0.55; the rich score is always strictly higher than the minimal one. -/
theorem planner_confidence_rich_vs_minimal
    (rsum rdesc rplan : String) (rcom : List PlannerAgent.JiraComment)
    (msum mplan : String)
    (hdesc : rdesc.length > 50) (hcom : rcom.length ≥ 3) (hplan : rplan.length > 200)
    (htest : pyIn "test" rplan = true)
    (hmsum : msum.length = 5) (hmplan : mplan.length = 10) :
    PlannerAgent.calculate_confidence rsum rdesc rcom rplan ≥ 9/10 ∧
    (rsum.length > 10 → PlannerAgent.calculate_confidence rsum rdesc rcom rplan ≥ 19/20) ∧
    PlannerAgent.calculate_confidence msum "" [] mplan ≤ 11/20 ∧
    PlannerAgent.calculate_confidence rsum rdesc rcom rplan >
      PlannerAgent.calculate_confidence msum "" [] mplan := by
  have hrdesc_ne : rdesc ≠ "" := ne_empty_of_length_gt rdesc 50 hdesc
  have hrplan_ne : rplan ≠ "" := ne_empty_of_length_gt rplan 200 hplan
  have hrcom_ne : rcom ≠ [] := by
    intro hc
    rw [hc] at hcom
    exact absurd hcom (by decide)
  have hlow : pyIn "test" (strLower rplan) = true :=
    pyIn_strLower "test" rplan (by decide) htest
  have hdB : PlannerAgent.descriptionBonus rdesc = 15/100 := by
    unfold PlannerAgent.descriptionBonus
    rw [if_pos ⟨hrdesc_ne, hdesc⟩]
  have hcB : PlannerAgent.commentsBonus rcom = 1/10 := by
    unfold PlannerAgent.commentsBonus
    rw [if_pos ⟨hrcom_ne, by omega⟩, if_pos ⟨hrcom_ne, hcom⟩]
    norm_num
  have hpB : PlannerAgent.planBonus rplan = 15/100 := by
    unfold PlannerAgent.planBonus
    rw [if_pos ⟨hrplan_ne, hplan⟩, if_pos ⟨hrplan_ne, by rw [hlow]; rfl⟩]
    norm_num
  have hsB : PlannerAgent.summaryBonus rsum = 1/10 ∨ PlannerAgent.summaryBonus rsum = 0 := by
    unfold PlannerAgent.summaryBonus
    split_ifs <;> simp
  have hmsB : PlannerAgent.summaryBonus msum = 0 := by
    unfold PlannerAgent.summaryBonus
    rw [if_neg]
    rintro ⟨-, h⟩
    omega
  have hmdB : PlannerAgent.descriptionBonus "" = 0 := by
    simp [PlannerAgent.descriptionBonus]
  have hmcB : PlannerAgent.commentsBonus [] = 0 := by
    simp [PlannerAgent.commentsBonus]
  have hmpB : PlannerAgent.planBonus mplan = 0 ∨ PlannerAgent.planBonus mplan = 5/100 := by
    unfold PlannerAgent.planBonus
    rw [if_neg (by rintro ⟨-, h⟩; omega)]
    split_ifs <;> simp
  have hrich : PlannerAgent.calculate_confidence rsum rdesc rcom rplan = 9/10 ∨
      PlannerAgent.calculate_confidence rsum rdesc rcom rplan = 1 := by
    unfold PlannerAgent.calculate_confidence
    rw [hdB, hcB, hpB]
    rcases hsB with h | h <;> rw [h]
    · right
      rw [show (1:ℚ)/2 + 1/10 + 15/100 + 1/10 + 15/100 = ((100 : ℤ) : ℚ)/100 by norm_num]
      rw [round2_int 100]
      norm_num [min_def]
    · left
      rw [show (1:ℚ)/2 + 0 + 15/100 + 1/10 + 15/100 = ((90 : ℤ) : ℚ)/100 by norm_num]
      rw [round2_int 90]
      norm_num [min_def]
  have hrich_hi : rsum.length > 10 →
      PlannerAgent.calculate_confidence rsum rdesc rcom rplan = 1 := by
    intro hlen
    have hsB1 : PlannerAgent.summaryBonus rsum = 1/10 := by
      unfold PlannerAgent.summaryBonus
      rw [if_pos ⟨ne_empty_of_length_gt rsum 10 hlen, hlen⟩]
    unfold PlannerAgent.calculate_confidence
    rw [hdB, hcB, hpB, hsB1]
    rw [show (1:ℚ)/2 + 1/10 + 15/100 + 1/10 + 15/100 = ((100 : ℤ) : ℚ)/100 by norm_num]
    rw [round2_int 100]
    norm_num [min_def]
  have hmin : PlannerAgent.calculate_confidence msum "" [] mplan = 1/2 ∨
      PlannerAgent.calculate_confidence msum "" [] mplan = 11/20 := by
    unfold PlannerAgent.calculate_confidence
    rw [hmsB, hmdB, hmcB]
    rcases hmpB with h | h <;> rw [h]
    · left
      rw [show (1:ℚ)/2 + 0 + 0 + 0 + 0 = ((50 : ℤ) : ℚ)/100 by norm_num]
      rw [round2_int 50]
      norm_num [min_def]
    · right
      rw [show (1:ℚ)/2 + 0 + 0 + 0 + 5/100 = ((55 : ℤ) : ℚ)/100 by norm_num]
      rw [round2_int 55]
      norm_num [min_def]
  refine ⟨?_, ?_, ?_, ?_⟩
  · rcases hrich with h | h <;> (rw [h]; try norm_num)
  · intro hlen
    rw [hrich_hi hlen]
    norm_num
  · rcases hmin with h | h <;> (rw [h]; try norm_num)
  · rcases hrich with h | h <;> rcases hmin with h2 | h2 <;> (rw [h, h2]; try norm_num)

/-- A 60-character description for the rich-ticket instances. -/
def richDesc : String := String.mk (List.replicate 60 'd')

/-- A 204-character plan mentioning `test` for the rich-ticket
instances. -/
def richPlan : String :=
  String.mk (List.replicate 100 'x') ++ "test" ++ String.mk (List.replicate 100 'y')

/-- Three ticket comments for the rich-ticket instances. -/
def richComments : List PlannerAgent.JiraComment := [{}, {}, {}]

set_option maxRecDepth 16384 in
/-- C9 counterexample: a ticket satisfying every rich-side hypothesis of
the claim (description over 50 characters, 3 comments, plan over 200
characters containing `test`) but with a short summary (`Fix`, 3
characters) scores exactly 0.9, below the claimed 0.95 — the claim's
rich bound needs the summary bonus, which its hypotheses do not force. -/
theorem planner_rich_ticket_scores_below_95 :
    richDesc.length > 50 ∧ richComments.length ≥ 3 ∧ richPlan.length > 200 ∧
    pyIn "test" richPlan = true ∧
    PlannerAgent.calculate_confidence "Fix" richDesc richComments richPlan = 9/10 ∧
    (9/10 : ℚ) < 19/20 := by
  have h1 : PlannerAgent.summaryBonus "Fix" = 0 := by
    unfold PlannerAgent.summaryBonus
    rw [if_neg (by decide)]
  have h2 : PlannerAgent.descriptionBonus richDesc = 15/100 := by
    unfold PlannerAgent.descriptionBonus
    rw [if_pos (by decide)]
  have h3 : PlannerAgent.commentsBonus richComments = 1/10 := by
    unfold PlannerAgent.commentsBonus
    rw [if_pos (by decide), if_pos (by decide)]
    norm_num
  have h4 : PlannerAgent.planBonus richPlan = 15/100 := by
    unfold PlannerAgent.planBonus
    rw [if_pos (by decide), if_pos (by decide)]
    norm_num
  refine ⟨by decide, by decide, by decide, by decide, ?_, by norm_num⟩
  unfold PlannerAgent.calculate_confidence
  rw [h1, h2, h3, h4]
  rw [show (1:ℚ)/2 + 0 + 15/100 + 1/10 + 15/100 = ((90 : ℤ) : ℚ)/100 by norm_num]
  rw [round2_int 90]
  norm_num [min_def]

set_option maxRecDepth 16384 in
/-- Witness for C9 (amended) at concrete rich and minimal tickets. -/
theorem planner_confidence_rich_vs_minimal_witness :
    richDesc.length > 50 ∧ richComments.length ≥ 3 ∧ richPlan.length > 200 ∧
    pyIn "test" richPlan = true ∧ ("abcde" : String).length = 5 ∧
    ("plan steps" : String).length = 10 ∧
    (PlannerAgent.calculate_confidence "Implement the feature" richDesc richComments
        richPlan ≥ 9/10 ∧
     (("Implement the feature" : String).length > 10 →
       PlannerAgent.calculate_confidence "Implement the feature" richDesc richComments
         richPlan ≥ 19/20) ∧
     PlannerAgent.calculate_confidence "abcde" "" [] "plan steps" ≤ 11/20 ∧
     PlannerAgent.calculate_confidence "Implement the feature" richDesc richComments
         richPlan >
       PlannerAgent.calculate_confidence "abcde" "" [] "plan steps") :=
  ⟨by decide, by decide, by decide, by decide, by decide, by decide,
   planner_confidence_rich_vs_minimal "Implement the feature" richDesc richPlan
     richComments "abcde" "plan steps" (by decide) (by decide) (by decide) (by decide)
     (by decide) (by decide)⟩

/-! ## Claim C10 -/

/-- C10: when no open pull request matches the branch and the creation
call raises, the exception is swallowed inside the PR-creation helper —
no PR is recorded — and the Reporter still finishes with status `done`,
leaving pr_url exactly as it was (empty for a run that never created a
PR), so a run can terminate `done` without a pull-request URL. -/
theorem reporter_swallows_pr_creation_failure (env : ReporterAgent.Env) (s : AgentState)
    (prs : List ReporterAgent.PRInfo) (e : String)
    (hopen : env.openPRs = .ok prs)
    (hnone : prs.find? (fun pr => pr.headRef = s.branch_name) = Option.none)
    (hcreate : env.createPR = .error e) :
    ReporterAgent.create_or_update_pr env s = .ok Option.none ∧
    ReporterAgent.run env s = { s with status := "done" } ∧
    (ReporterAgent.run env s).pr_url = s.pr_url := by
  have h : ReporterAgent.create_or_update_pr env s = .ok Option.none := by
    unfold ReporterAgent.create_or_update_pr
    rw [hopen]
    simp [hnone, hcreate]
  have h2 : ReporterAgent.run env s = { s with status := "done" } := by
    unfold ReporterAgent.run
    rw [h]
  exact ⟨h, h2, by rw [h2]⟩

/-- Witness for C10: empty open-PR list, failing creation call, fresh
state. -/
theorem reporter_swallows_pr_creation_failure_witness :
    ReporterAgent.run
      { pushResult := { success := true }, openPRs := .ok [],
        createPR := .error "GitHub API error", prComment := .ok (), jiraComment := .ok (),
        jiraTransition := .ok (), discordNotify := .ok () } initialState =
      { initialState with status := "done" } ∧
    (ReporterAgent.run
      { pushResult := { success := true }, openPRs := .ok [],
        createPR := .error "GitHub API error", prComment := .ok (), jiraComment := .ok (),
        jiraTransition := .ok (), discordNotify := .ok () } initialState).pr_url = "" :=
  ⟨(reporter_swallows_pr_creation_failure _ initialState [] "GitHub API error"
      (by rfl) (by rfl) (by rfl)).2.1,
   (reporter_swallows_pr_creation_failure _ initialState [] "GitHub API error"
      (by rfl) (by rfl) (by rfl)).2.2⟩

end VDA
